import Mathlib

/-!
# Verification of the browser-context acquisition subsystem

Shallow embedding of `src/browserContextFactory.ts`: the strategy selector,
the shared registry base (`BaseContextFactory`), the CDP/remote/isolated
strategies, and the persistent-profile strategy with its coalescing,
retry and soft/hard close machinery.  JavaScript truthiness of optional
strings (`if (endpoint)`, the rootPath conditional) is embedded explicitly via
`truthyStr`; nullish coalescing (`??`) is `Option.getD`.
-/

namespace BrowserContextFactory

/-- JS truthiness of an optional string value: `undefined`/`null` and the
empty string are falsy, every other string is truthy. -/
def truthyStr : Option String → Bool
  | none => false
  | some s => !s.isEmpty

/-- The part of `FullConfig` that the context-factory subsystem reads
(`config.browser` fields used in `browserContextFactory.ts`). -/
structure BrowserConfig where
  remoteEndpoint : Option String
  cdpEndpoint : Option String
  isolated : Bool
  browserName : String
  /-- Collapsed `config.browser.launchOptions?.channel`: `none` when
  `launchOptions` is absent or has no channel. -/
  channel : Option String
deriving Repr, DecidableEq

/-- The four strategy kinds returned by `contextFactory`. -/
inductive StrategyKind where
  | remote
  | cdp
  | isolatedKind
  | persistent
deriving Repr, DecidableEq

/-- Embedding of `contextFactory(config)` (source lines 32–40): fixed-precedence pure
dispatch on the configuration. -/
def contextFactory (c : BrowserConfig) : StrategyKind :=
  if truthyStr c.remoteEndpoint then .remote
  else if truthyStr c.cdpEndpoint then .cdp
  else if c.isolated then .isolatedKind
  else .persistent

/-- Embedding of `CdpContextFactory._doCreateContext` (source lines 134–136): in isolated
mode a fresh context is created; otherwise `browser.contexts()[0]` is
returned with no emptiness check, so an empty list yields `undefined`
(embedded as `none` via `List.head?`). -/
def cdpDoCreateContext (isolated : Bool) (contexts : List Nat) (freshCtx : Nat) :
    Option Nat :=
  if isolated then some freshCtx else contexts.head?

/-- Embedding of `PersistentContextFactory._createUserDataDir` (source lines 328–336):
`path.join(dir, "mcp-" + browserToken + rootPathToken)` where
`browserToken = launchOptions?.channel ?? browserName` and
`rootPathToken = rootPath ? "-" + createHash(rootPath) : ""`.
The hash primitive lives in `utils/guid.js` and is passed in abstractly. -/
def createUserDataDir (hash : String → String) (base : String)
    (channel : Option String) (browserName : String)
    (rootPath : Option String) : String :=
  let browserToken := channel.getD browserName
  let rootPathToken :=
    if truthyStr rootPath then "-" ++ hash (rootPath.getD "") else ""
  base ++ "/" ++ "mcp-" ++ browserToken ++ rootPathToken

/-- C5: the strategy selector is a pure function picking exactly one
strategy in fixed precedence: a (truthy) remote endpoint wins, then a
(truthy) CDP endpoint, then the isolation flag, else persistent —
deterministically for every configuration.  "Configured" is the source's
JS-truthiness test `if (config.browser.remoteEndpoint)` etc. -/
theorem c5_strategy_selector (c : BrowserConfig) :
    (truthyStr c.remoteEndpoint = true → contextFactory c = .remote) ∧
    (truthyStr c.remoteEndpoint = false → truthyStr c.cdpEndpoint = true →
      contextFactory c = .cdp) ∧
    (truthyStr c.remoteEndpoint = false → truthyStr c.cdpEndpoint = false →
      c.isolated = true → contextFactory c = .isolatedKind) ∧
    (truthyStr c.remoteEndpoint = false → truthyStr c.cdpEndpoint = false →
      c.isolated = false → contextFactory c = .persistent) ∧
    contextFactory c = contextFactory c := by
  refine ⟨?_, ?_, ?_, ?_, rfl⟩ <;> intros <;> simp_all [contextFactory]

/-- Witness for `c5_strategy_selector` at a concrete configuration, the
hypotheses discharged by evaluation. -/
theorem c5_strategy_selector_witness :
    contextFactory ⟨none, some "http://localhost:9222", false, "chromium", none⟩
      = .cdp := by
  have h := c5_strategy_selector
    ⟨none, some "http://localhost:9222", false, "chromium", none⟩
  exact h.2.1 (by decide) (by decide)

/-- C10: for the CDP strategy in non-isolated mode, `_doCreateContext`
returns `browser.contexts()[0]` with no emptiness check: when the attached
browser has no open contexts the call resolves successfully with an
undefined (`none`) session instead of failing or creating a new context. -/
theorem c10_cdp_empty_contexts_undefined :
    cdpDoCreateContext false [] 0 = none ∧
    (∀ contexts : List Nat, ∀ fresh : Nat,
      cdpDoCreateContext false contexts fresh = contexts.head?) ∧
    (∀ c : Nat, ∀ rest : List Nat, ∀ fresh : Nat,
      cdpDoCreateContext false (c :: rest) fresh = some c) := by
  refine ⟨rfl, fun _ _ => rfl, fun _ _ _ => rfl⟩

/-- C9 (scheme and determinism): the derived profile directory is
`<base>/mcp-<channelOrEngineToken><-hashOfRootPath?>` — the token is the
channel when present (nullish coalescing, so even an empty-string channel
is kept) and otherwise the engine name; the hash suffix appears exactly
when a truthy (non-empty) root path is supplied, since the source tests
a JS-truthiness conditional on rootPath; identical inputs give a byte-identical result. -/
theorem c9_user_data_dir_scheme (hash : String → String) (base : String)
    (channel : Option String) (browserName : String)
    (rootPath : Option String) :
    (∀ r : String, rootPath = some r → r ≠ "" →
      createUserDataDir hash base channel browserName rootPath
        = (base ++ "/" ++ "mcp-" ++ channel.getD browserName) ++ ("-" ++ hash r)) ∧
    (truthyStr rootPath = false →
      createUserDataDir hash base channel browserName rootPath
        = base ++ "/" ++ "mcp-" ++ channel.getD browserName) ∧
    createUserDataDir hash base channel browserName rootPath
      = createUserDataDir hash base channel browserName rootPath := by
  refine ⟨?_, ?_, rfl⟩
  · intro r hr hne
    subst hr
    have ht : truthyStr (some r) = true := by
      simp only [truthyStr, Bool.not_eq_true']
      exact Bool.eq_false_iff.mpr (fun hc => hne ((String.isEmpty_iff r).mp hc))
    simp [createUserDataDir, ht, Option.getD]
  · intro hf
    simp [createUserDataDir, hf]

/-- Witness for `c9_user_data_dir_scheme`: a concrete root path produces the
hash-suffixed directory name. -/
theorem c9_user_data_dir_scheme_witness :
    createUserDataDir (fun _ => "abc123") "/base" none "chromium"
        (some "/home/u/proj")
      = ("/base" ++ "/" ++ "mcp-" ++ "chromium") ++ ("-" ++ "abc123") := by
  exact (c9_user_data_dir_scheme (fun _ => "abc123") "/base" none "chromium"
    (some "/home/u/proj")).1 "/home/u/proj" rfl (by decide)

/-- An error thrown by a `launchPersistentContext` attempt, classified the
way `_doCreateContext` classifies it: by which substrings the message
contains. -/
structure LaunchError where
  /-- set when the message contains "Executable does not exist" (the source tests `includes` on it) -/
  hasExecutableMissing : Bool
  /-- set when the message contains "ProcessSingleton" -/
  hasProcessSingleton : Bool
  /-- set when the message contains "Invalid URL" -/
  hasInvalidURL : Bool
  msg : String
deriving Repr, DecidableEq

/-- Outcome of one `launchPersistentContext` attempt. -/
inductive AttemptOutcome where
  | success (ctx : Nat)
  | failure (e : LaunchError)
deriving Repr, DecidableEq

/-- Error surfaced by the persistent strategy's creation loop. -/
inductive CreateError where
  /-- rewritten "Browser specified in your config is not installed." -/
  | notInstalled
  /-- rewritten "Browser is already running with the same profile." -/
  | alreadyRunning
  /-- original error propagated unchanged -/
  | original (e : LaunchError)
  /-- "Failed to create browser context after 3 attempts" fall-through -/
  | failedAfterThree
deriving Repr, DecidableEq

/-- Result of running the creation loop: how many launch attempts were
made, the backoff waits (ms) performed between attempts, and the outcome. -/
structure LoopResult where
  attempts : Nat
  waits : List Nat
  result : Except CreateError Nat
deriving Repr

/-- The retry loop of `PersistentContextFactory._doCreateContext`
(source lines 212–245), from loop index `i` with waits `acc` already
performed: `for (let i = 0; i < 3; i++)` — on success return the context;
a missing-executable message throws the rewritten "not installed" error at
once; a `ProcessSingleton`/`Invalid URL` message waits `2000 * (i + 1)` ms
and retries while `i < 2`, and on the third such failure throws the
rewritten "already running" error; anything else is rethrown unchanged. -/
def attemptLoop (outcomes : Nat → AttemptOutcome) (i : Nat) (acc : List Nat) :
    LoopResult :=
  if _h : i < 3 then
    match outcomes i with
    | .success c => ⟨i + 1, acc, .ok c⟩
    | .failure e =>
      if e.hasExecutableMissing then ⟨i + 1, acc, .error .notInstalled⟩
      else if e.hasProcessSingleton || e.hasInvalidURL then
        if i < 2 then attemptLoop outcomes (i + 1) (acc ++ [2000 * (i + 1)])
        else ⟨i + 1, acc, .error .alreadyRunning⟩
      else ⟨i + 1, acc, .error (.original e)⟩
  else ⟨i, acc, .error .failedAfterThree⟩
termination_by 3 - i

/-- The whole creation loop, started at attempt 0 with no waits yet. -/
def doCreateContextLoop (outcomes : Nat → AttemptOutcome) : LoopResult :=
  attemptLoop outcomes 0 []

/-- A lock-contention outcome: a failure whose message mentions
`ProcessSingleton` or `Invalid URL` but not the missing executable. -/
def lockFailure (a : AttemptOutcome) : Prop :=
  ∃ e : LaunchError, a = .failure e ∧ e.hasExecutableMissing = false ∧
    (e.hasProcessSingleton || e.hasInvalidURL) = true

/-- Bound on attempts: `attemptLoop` makes at most `3 - i` further attempts, so the whole
loop makes at most 3. -/
lemma attemptLoop_attempts_le (outcomes : Nat → AttemptOutcome) :
    ∀ fuel i acc, 3 - i ≤ fuel → i ≤ 3 →
      (attemptLoop outcomes i acc).attempts ≤ 3 := by
  intro fuel
  induction fuel with
  | zero =>
    intro i acc hfuel hle
    rw [attemptLoop]
    have hni : ¬ i < 3 := by omega
    simpa [hni] using hle
  | succ fuel ih =>
    intro i acc hfuel hle
    rw [attemptLoop]
    by_cases h : i < 3
    · simp only [h, dif_pos]
      cases houtcome : outcomes i with
      | success c =>
        show i + 1 ≤ 3
        omega
      | failure e =>
        by_cases hexec : e.hasExecutableMissing
        · simp only [hexec, if_true]
          show i + 1 ≤ 3
          omega
        · by_cases hlock : (e.hasProcessSingleton || e.hasInvalidURL) = true
          · by_cases hi : i < 2
            · simp only [hexec, hlock, hi, if_true, if_false, Bool.false_eq_true]
              exact ih (i + 1) (acc ++ [2000 * (i + 1)]) (by omega) (by omega)
            · simp only [hexec, hlock, hi, if_true, if_false, Bool.false_eq_true]
              show i + 1 ≤ 3
              omega
          · simp only [hexec, hlock, if_false, Bool.false_eq_true]
            show i + 1 ≤ 3
            omega
    · simpa [h] using hle

/-- C2: the persistent launch retry policy.  At most 3 attempts are made;
a missing-executable error at attempt `i` stops at once with the rewritten
"not installed" error and no further wait; a lock-contention error at
attempt `i < 2` waits `2000 * (i + 1)` ms and retries; three consecutive
lock-contention failures end with exactly the rewritten "already running"
error, after waits of 2000 ms then 4000 ms; any other error propagates
unchanged with no retry. -/
theorem c2_launch_retry_policy (outcomes : Nat → AttemptOutcome) :
    (doCreateContextLoop outcomes).attempts ≤ 3 ∧
    (∀ i acc, ∀ e : LaunchError, i < 3 → outcomes i = .failure e →
      e.hasExecutableMissing = true →
      attemptLoop outcomes i acc = ⟨i + 1, acc, .error .notInstalled⟩) ∧
    (∀ i acc, ∀ e : LaunchError, i < 2 → outcomes i = .failure e →
      e.hasExecutableMissing = false →
      (e.hasProcessSingleton || e.hasInvalidURL) = true →
      attemptLoop outcomes i acc
        = attemptLoop outcomes (i + 1) (acc ++ [2000 * (i + 1)])) ∧
    (lockFailure (outcomes 0) → lockFailure (outcomes 1) →
      lockFailure (outcomes 2) →
      doCreateContextLoop outcomes
        = ⟨3, [2000, 4000], .error .alreadyRunning⟩) ∧
    (∀ i acc, ∀ e : LaunchError, i < 3 → outcomes i = .failure e →
      e.hasExecutableMissing = false →
      (e.hasProcessSingleton || e.hasInvalidURL) = false →
      attemptLoop outcomes i acc = ⟨i + 1, acc, .error (.original e)⟩) := by
  refine ⟨attemptLoop_attempts_le outcomes 3 0 [] (by omega) (by omega),
    ?_, ?_, ?_, ?_⟩
  · intro i acc e hi he hexec
    rw [attemptLoop]
    simp [hi, he, hexec]
  · intro i acc e hi he hexec hlock
    rw [attemptLoop]
    have hi3 : i < 3 := by omega
    simp [hi3, he, hexec, hlock, hi]
  · intro h0 h1 h2
    obtain ⟨e0, he0, hx0, hl0⟩ := h0
    obtain ⟨e1, he1, hx1, hl1⟩ := h1
    obtain ⟨e2, he2, hx2, hl2⟩ := h2
    show attemptLoop outcomes 0 [] = _
    rw [attemptLoop]
    simp only [show (0 : Nat) < 3 from by omega, dif_pos, he0, hx0, hl0,
      Bool.false_eq_true, if_false, if_true, show (0 : Nat) < 2 from by omega]
    rw [attemptLoop]
    simp only [show (1 : Nat) < 3 from by omega, dif_pos, he1, hx1, hl1,
      Bool.false_eq_true, if_false, if_true, show (1 : Nat) < 2 from by omega]
    rw [attemptLoop]
    simp [he2, hx2, hl2]
  · intro i acc e hi he hexec hlock
    rw [attemptLoop]
    simp [hi, he, hexec, hlock]

/-- Witness for `c2_launch_retry_policy`: three consecutive
`ProcessSingleton` failures produce attempts 3, waits [2000, 4000] and the
rewritten "already running" error. -/
theorem c2_launch_retry_policy_witness :
    doCreateContextLoop
        (fun _ => .failure ⟨false, true, false, "ProcessSingleton lock"⟩)
      = ⟨3, [2000, 4000], .error .alreadyRunning⟩ := by
  exact (c2_launch_retry_policy
      (fun _ => .failure ⟨false, true, false, "ProcessSingleton lock"⟩)).2.2.2.1
    ⟨_, rfl, rfl, rfl⟩ ⟨_, rfl, rfl, rfl⟩ ⟨_, rfl, rfl, rfl⟩

/-- State of a `BaseContextFactory` instance (shared by the isolated, CDP
and remote strategies) together with the currently obtained browser:
`browserPromise` is `_browserPromise` (holding the browser id it resolves
to), `contexts` are the open contexts of the currently obtained browser
(`browser.contexts()`), `launches` counts `_doObtainBrowser` invocations
and `browserClosed` counts `browser.close()` calls. -/
structure BaseState where
  browserPromise : Option Nat
  launches : Nat
  nextBrowser : Nat
  contexts : List Nat
  nextCtx : Nat
  browserClosed : Nat
deriving Repr, DecidableEq

/-- Embedding of `BaseContextFactory._obtainBrowser` (source lines 58–71): if
`_browserPromise` is set, return it; otherwise start exactly one
`_doObtainBrowser` and store its promise.  A freshly launched browser has
no open contexts. -/
def obtainBrowser (s : BaseState) : Nat × BaseState :=
  match s.browserPromise with
  | some b => (b, s)
  | none =>
    (s.nextBrowser,
     { s with browserPromise := some s.nextBrowser,
              launches := s.launches + 1,
              nextBrowser := s.nextBrowser + 1,
              contexts := [] })

/-- The disconnect handler (`browser.on("disconnected", ...)`) registered by
`_obtainBrowser` (source lines 63–66): clears `_browserPromise`. -/
def onDisconnected (s : BaseState) : BaseState :=
  { s with browserPromise := none }

/-- Embedding of `BaseContextFactory.createContext` (source lines 77–82): obtain the
(shared) browser, then create one fresh context on it.  Returns the pair
(browser id, new context id). -/
def baseCreateContext (s : BaseState) : (Nat × Nat) × BaseState :=
  let r := obtainBrowser s
  ((r.1, r.2.nextCtx),
   { r.2 with contexts := r.2.contexts ++ [r.2.nextCtx],
              nextCtx := r.2.nextCtx + 1 })

/-- Embedding of `BaseContextFactory._closeBrowserContext` (source lines 88–97): if the
browser currently has exactly one context, clear `_browserPromise`; close
the context (removing it from `browser.contexts()`); if no context remains,
close the browser. -/
def closeBrowserContext (s : BaseState) (ctx : Nat) : BaseState :=
  let s1 := if s.contexts.length = 1 then { s with browserPromise := none } else s
  let s2 := { s1 with contexts := s1.contexts.erase ctx }
  if s2.contexts.length = 0
  then { s2 with browserClosed := s2.browserClosed + 1 }
  else s2

/-- Closing a sequence of sessions one after the other. -/
def closeAll (s : BaseState) (order : List Nat) : BaseState :=
  order.foldl closeBrowserContext s

/-- One `_closeBrowserContext` call on an open session: the session is
removed from the browser's context list, and the browser is closed exactly
when that session was the only one open (the count used for the decision
being read after the context close). -/
lemma closeBrowserContext_spec (s : BaseState) (ctx : Nat)
    (hmem : ctx ∈ s.contexts) :
    (closeBrowserContext s ctx).contexts = s.contexts.erase ctx ∧
    (closeBrowserContext s ctx).browserClosed
      = s.browserClosed + (if s.contexts.length = 1 then 1 else 0) ∧
    (closeBrowserContext s ctx).launches = s.launches := by
  have hlen : (s.contexts.erase ctx).length = s.contexts.length - 1 :=
    List.length_erase_of_mem hmem
  have hpos : 0 < s.contexts.length := List.length_pos_of_mem hmem
  by_cases h1 : s.contexts.length = 1
  · have h0 : (s.contexts.erase ctx).length = 0 := by omega
    simp [closeBrowserContext, h1, h0]
  · have h0 : ¬ (s.contexts.erase ctx).length = 0 := by omega
    simp [closeBrowserContext, h1, h0]

/-- Closing a nodup batch of open sessions removes exactly those sessions,
and closes the browser exactly when the batch exhausts all open sessions. -/
lemma closeAll_count :
    ∀ (order : List Nat) (s : BaseState), s.contexts.Nodup → order.Nodup →
      (∀ a ∈ order, a ∈ s.contexts) →
      (closeAll s order).contexts.length = s.contexts.length - order.length ∧
      (closeAll s order).browserClosed = s.browserClosed +
        (if order.length = s.contexts.length ∧ 0 < order.length
         then 1 else 0) := by
  intro order
  induction order with
  | nil =>
    intro s _ _ _
    simp [closeAll]
  | cons a rest ih =>
    intro s hs hord hsub
    have hmem : a ∈ s.contexts := hsub a (by simp)
    have hpos : 0 < s.contexts.length := List.length_pos_of_mem hmem
    obtain ⟨hanr, hrest⟩ := List.nodup_cons.mp hord
    have hstep := closeBrowserContext_spec s a hmem
    have hfold : closeAll s (a :: rest) = closeAll (closeBrowserContext s a) rest := by
      simp [closeAll]
    by_cases h1 : s.contexts.length = 1
    · -- the single open session is `a`; the rest of the batch must be empty
      have hctx : s.contexts.erase a = [] := by
        apply List.eq_nil_of_length_eq_zero
        have := List.length_erase_of_mem hmem
        omega
      have hrnil : rest = [] := by
        apply List.eq_nil_iff_forall_not_mem.mpr
        intro b hb
        have hbmem : b ∈ s.contexts := hsub b (by simp [hb])
        have hbne : b ≠ a := fun hba => hanr (hba ▸ hb)
        have : b ∈ s.contexts.erase a :=
          (List.mem_erase_of_ne hbne).mpr hbmem
        rw [hctx] at this
        exact absurd this (List.not_mem_nil b)
      subst hrnil
      rw [hfold]
      simp only [closeAll, List.foldl_nil]
      refine ⟨?_, ?_⟩
      · rw [hstep.1, hctx]
        simp [h1]
      · rw [hstep.2.1]
        simp [h1]
    · -- at least two sessions open: this close does not close the browser
      have h2 : 2 ≤ s.contexts.length := by omega
      have hctxlen : (s.contexts.erase a).length = s.contexts.length - 1 :=
        List.length_erase_of_mem hmem
      have hnodup' : (s.contexts.erase a).Nodup := hs.erase a
      have hsub' : ∀ b ∈ rest, b ∈ s.contexts.erase a := by
        intro b hb
        have hbne : b ≠ a := fun hba => hanr (hba ▸ hb)
        exact (List.mem_erase_of_ne hbne).mpr (hsub b (by simp [hb]))
      have hih := ih (closeBrowserContext s a) (hstep.1 ▸ hnodup') hrest
        (by rw [hstep.1]; exact hsub')
      rw [hfold]
      constructor
      · rw [hih.1, hstep.1, hctxlen]
        simp only [List.length_cons]
        omega
      · rw [hih.2, hstep.2.1, hstep.1, hctxlen]
        simp only [List.length_cons, h1, if_false]
        by_cases hlast : rest.length = s.contexts.length - 1
        · have hl1 : rest.length + 1 = s.contexts.length := by omega
          have hrpos : 0 < rest.length := by omega
          have ha : 1 < s.contexts.length := by omega
          have hb : s.contexts.length - 1 + 1 = s.contexts.length := by omega
          simp [hlast, hl1, hrpos, ha, hb, hpos]
        · have hl1 : ¬ (rest.length + 1 = s.contexts.length) := by omega
          simp [hlast, hl1]

/-- C3: for the shared registry base, closing a session removes it from the
browser's open-context list, and the browser process is closed iff that
session was the last open one — the count deciding the browser close is
read after the session close.  Consequently closing K−1 of K open sessions
never closes the browser, while closing all K closes it exactly once. -/
theorem c3_reference_counted_teardown :
    (∀ (s : BaseState) (ctx : Nat), s.contexts.Nodup → ctx ∈ s.contexts →
      ((closeBrowserContext s ctx).browserClosed = s.browserClosed + 1 ↔
        s.contexts.length = 1) ∧
      (closeBrowserContext s ctx).contexts = s.contexts.erase ctx) ∧
    (∀ (s : BaseState) (order : List Nat), s.contexts.Nodup → order.Nodup →
      (∀ a ∈ order, a ∈ s.contexts) →
      order.length + 1 = s.contexts.length →
      (closeAll s order).browserClosed = s.browserClosed) ∧
    (∀ (s : BaseState) (order : List Nat), s.contexts.Nodup → order.Nodup →
      (∀ a ∈ order, a ∈ s.contexts) →
      order.length = s.contexts.length → 0 < order.length →
      (closeAll s order).browserClosed = s.browserClosed + 1) := by
  refine ⟨?_, ?_, ?_⟩
  · intro s ctx hs hmem
    have hstep := closeBrowserContext_spec s ctx hmem
    refine ⟨?_, hstep.1⟩
    rw [hstep.2.1]
    by_cases h1 : s.contexts.length = 1 <;> simp [h1]
  · intro s order hs hord hsub hlen
    have h := (closeAll_count order s hs hord hsub).2
    rw [h]
    have : ¬ (order.length = s.contexts.length ∧ 0 < order.length) := by omega
    simp [this]
  · intro s order hs hord hsub hlen hpos
    have h := (closeAll_count order s hs hord hsub).2
    rw [h]
    have hne : s.contexts ≠ [] := List.length_pos.mp (by omega)
    simp [hlen, hpos, hne]

/-- Witness for `c3_reference_counted_teardown`: with three open sessions,
closing two leaves the browser running; closing all three closes it once. -/
theorem c3_reference_counted_teardown_witness :
    (closeAll ⟨some 0, 1, 1, [0, 1, 2], 3, 0⟩ [0, 1]).browserClosed = 0 ∧
    (closeAll ⟨some 0, 1, 1, [0, 1, 2], 3, 0⟩ [0, 1, 2]).browserClosed = 1 := by
  constructor
  · exact c3_reference_counted_teardown.2.1 ⟨some 0, 1, 1, [0, 1, 2], 3, 0⟩
      [0, 1] (by decide) (by decide) (by decide) (by decide)
  · exact c3_reference_counted_teardown.2.2 ⟨some 0, 1, 1, [0, 1, 2], 3, 0⟩
      [0, 1, 2] (by decide) (by decide) (by decide) (by decide) (by decide)

/-- State of a `PersistentContextFactory` instance: `pending` is
`_createContextPromise` (holding an id for the creation it resolves to),
`browserInstance` is `_browserInstance`, `userDataDir`/`userDataDirs` are
the profile-directory claim and the claim set, `launches` counts
`launchPersistentContext` creations, `closeCalls` counts
`browserInstance.close()` invocations, `closeErrors` counts swallowed close
errors and `releases` counts executions of the claim-release block
(`_userDataDirs.delete` + clearing `_userDataDir`). -/
structure PersistentState where
  pending : Option Nat
  browserInstance : Option Nat
  userDataDir : Option String
  userDataDirs : List String
  launches : Nat
  closeCalls : Nat
  closeErrors : Nat
  releases : Nat
  nextId : Nat
deriving Repr, DecidableEq

/-- Adding to the JS `_userDataDirs` set (`Set.add` semantics). -/
def addDir (d : String) (l : List String) : List String :=
  if d ∈ l then l else l ++ [d]

/-- Result of a persistent `createContext` call. -/
inductive CreateOutcome where
  /-- the call returned the outstanding `_createContextPromise` -/
  | pendingReuse (p : Nat)
  /-- the call returned the existing `_browserInstance` with a soft-close wrapper -/
  | reuseExisting (b : Nat)
  /-- the call created a fresh instance with a hard-close wrapper -/
  | created (b : Nat)
deriving Repr, DecidableEq

/-- Which close wrapper a persistent `createContext` result carries: the
reuse path hands out `_softCloseBrowserContext` (source line 183), the
creation path hands out `_hardCloseBrowserContext` (source line 225), and
an awaited pending creation resolves to the creation path's result. -/
inductive CloseKind where
  | soft
  | hard
deriving Repr, DecidableEq

def closeKindOf : CreateOutcome → CloseKind
  | .pendingReuse _ => .hard
  | .reuseExisting _ => .soft
  | .created _ => .hard

/-- Embedding of `PersistentContextFactory._softCloseBrowserContext` (source lines
291–295): does nothing. -/
def softCloseBrowserContext (s : PersistentState) : PersistentState := s

/-- Embedding of `PersistentContextFactory._hardCloseBrowserContext` (source lines
297–317): if an instance exists and some page is not closed, call
`browserInstance.close()` inside try/catch (a thrown error is swallowed);
then unconditionally clear the instance reference and, if a directory is
claimed, delete it from the claim set and clear the claim. -/
def hardCloseBrowserContext (allPagesClosed closeThrows : Bool)
    (s : PersistentState) : PersistentState :=
  let s1 :=
    if s.browserInstance.isSome && !allPagesClosed then
      { s with closeCalls := s.closeCalls + 1,
               closeErrors := s.closeErrors + (if closeThrows then 1 else 0) }
    else s
  let s2 := { s1 with browserInstance := none }
  match s2.userDataDir with
  | some d =>
    { s2 with userDataDir := none,
              userDataDirs := s2.userDataDirs.erase d,
              releases := s2.releases + 1 }
  | none => s2

/-- The close handler (`browserContext.on("close", ...)`) registered by
`_setupBrowserEventListeners` (source lines 271–280): clears the instance
reference and releases the directory claim if one is held. -/
def onCloseEvent (s : PersistentState) : PersistentState :=
  let s1 := { s with browserInstance := none }
  match s1.userDataDir with
  | some d =>
    { s1 with userDataDir := none,
              userDataDirs := s1.userDataDirs.erase d,
              releases := s1.releases + 1 }
  | none => s1

/-- Embedding of `PersistentContextFactory.resetBrowserInstance` (source lines 339–343):
hard close, then clear `_createContextPromise`. -/
def resetBrowserInstance (allPagesClosed closeThrows : Bool)
    (s : PersistentState) : PersistentState :=
  { hardCloseBrowserContext allPagesClosed closeThrows s with pending := none }

/-- The probe timeout used by `_isBrowserContextValid` (source line 260). -/
def probeTimeoutMs : Nat := 1000

/-- Embedding of `PersistentContextFactory._isBrowserContextValid` (source lines
248–269): an instance with no open pages is valid; otherwise the first
page's title is raced against a `probeTimeoutMs` timer, and any rejection
(title failure, modelled by `titleOk = false`, or the timer winning,
modelled by `probeTimeoutMs ≤ titleTime`) is caught and turned into
`false`.  The surrounding try/catch makes the probe total. -/
def isBrowserContextValid (pages : List Nat) (titleTime : Nat)
    (titleOk : Bool) : Bool :=
  if pages.length = 0 then true
  else if titleTime < probeTimeoutMs then titleOk
  else false

/-- Net effect of a completed, first-attempt-successful
`_doCreateContext` (source lines 198–246 with the retry loop of
`doCreateContextLoop` succeeding immediately): claim the profile
directory, launch, store the instance, hand out a hard-close wrapper; the
`finally` in `createContext` (source line 194) has cleared the pending
promise by the time the caller observes the result. -/
def doCreateFull (dir : String) (s : PersistentState) :
    CreateOutcome × PersistentState :=
  (.created s.nextId,
   { s with pending := none,
            browserInstance := some s.nextId,
            userDataDir := some dir,
            userDataDirs := addDir dir s.userDataDirs,
            launches := s.launches + 1,
            nextId := s.nextId + 1 })

/-- Embedding of `PersistentContextFactory.createContext` (source lines 171–196) as a
whole completed call: return the pending creation if one is outstanding;
else reuse the existing instance when the liveness probe passes (soft-close
wrapper); else perform a fresh creation (hard-close wrapper). -/
def createContextFull (valid : Nat → Bool) (dir : String)
    (s : PersistentState) : CreateOutcome × PersistentState :=
  match s.pending with
  | some p => (.pendingReuse p, s)
  | none =>
    match s.browserInstance with
    | some b => if valid b then (.reuseExisting b, s) else doCreateFull dir s
    | none => doCreateFull dir s

/-- C6: the persistent hard close is idempotent, never throws (it is a
total function: the inner `browserInstance.close()` error is swallowed by
the try/catch, so the bookkeeping below runs whether or not `closeThrows`),
and running it twice — via a second explicit call or via the instance's
own close event — leaves the instance reference and the directory claim
cleared, with the claim-release block executed exactly once when a claim
was held. -/
theorem c6_hard_close_idempotent (s : PersistentState)
    (a1 t1 a2 t2 : Bool) :
    ((hardCloseBrowserContext a1 t1 s).browserInstance = none ∧
      (hardCloseBrowserContext a1 t1 s).userDataDir = none ∧
      (hardCloseBrowserContext a1 t1 s).releases
        = s.releases + (if s.userDataDir.isSome then 1 else 0)) ∧
    (hardCloseBrowserContext a2 t2 (hardCloseBrowserContext a1 t1 s)
      = hardCloseBrowserContext a1 t1 s) ∧
    (onCloseEvent (hardCloseBrowserContext a1 t1 s)
      = hardCloseBrowserContext a1 t1 s) := by
  cases s with
  | mk pending browserInstance userDataDir userDataDirs launches closeCalls
      closeErrors releases nextId =>
    cases userDataDir <;> cases browserInstance <;>
      cases a1 <;> cases t1 <;> cases a2 <;> cases t2 <;>
      simp [hardCloseBrowserContext, onCloseEvent]

/-- C7: the persistent liveness probe judges an instance with no open
pages live; any probe failure — the title read rejecting or the 1000 ms
timer winning — yields `false` without surfacing an error, and
`createContext` then falls back to a fresh creation that succeeds. -/
theorem c7_liveness_probe (pages : List Nat) (titleTime : Nat)
    (titleOk : Bool) (s : PersistentState) (b : Nat) (dir : String) :
    probeTimeoutMs = 1000 ∧
    (∀ tT : Nat, ∀ tOk : Bool, isBrowserContextValid [] tT tOk = true) ∧
    (pages ≠ [] → (titleOk = false ∨ probeTimeoutMs ≤ titleTime) →
      isBrowserContextValid pages titleTime titleOk = false) ∧
    (s.pending = none → s.browserInstance = some b →
      isBrowserContextValid pages titleTime titleOk = false →
      createContextFull (fun _ => isBrowserContextValid pages titleTime titleOk)
          dir s
        = doCreateFull dir s ∧
      (createContextFull (fun _ => isBrowserContextValid pages titleTime titleOk)
          dir s).1 = .created s.nextId) := by
  refine ⟨rfl, ?_, ?_, ?_⟩
  · intro tT tOk
    simp [isBrowserContextValid]
  · intro hne hfail
    have hlen : ¬ pages.length = 0 := by
      simpa [List.length_eq_zero] using hne
    rcases hfail with hok | htime
    · simp [isBrowserContextValid, hlen, hok]
    · have : ¬ titleTime < probeTimeoutMs := by omega
      simp [isBrowserContextValid, hlen, this]
  · intro hpend hinst hprobe
    have h1 : createContextFull
        (fun _ => isBrowserContextValid pages titleTime titleOk) dir s
        = doCreateFull dir s := by
      simp [createContextFull, hpend, hinst, hprobe]
    exact ⟨h1, by rw [h1]; rfl⟩

/-- Witness for `c7_liveness_probe`: a timed-out title read on a one-page
instance is judged not live and `createContext` performs a fresh creation. -/
theorem c7_liveness_probe_witness :
    isBrowserContextValid [0] 1500 true = false ∧
    (createContextFull (fun _ => isBrowserContextValid [0] 1500 true) "d"
        ⟨none, some 0, some "d", ["d"], 1, 0, 0, 0, 1⟩).1 = .created 1 := by
  have h := c7_liveness_probe [0] 1500 true
    ⟨none, some 0, some "d", ["d"], 1, 0, 0, 0, 1⟩ 0 "d"
  refine ⟨h.2.2.1 (by decide) (by right; decide), ?_⟩
  exact (h.2.2.2 rfl rfl (h.2.2.1 (by decide) (by right; decide))).2

/-- A `createContext` on a factory with no pending creation and no
instance performs a fresh creation. -/
lemma createContextFull_of_clear (v : Nat → Bool) (dir : String)
    (s : PersistentState) (h1 : s.pending = none)
    (h2 : s.browserInstance = none) :
    createContextFull v dir s = doCreateFull dir s := by
  unfold createContextFull
  rw [h1, h2]

/-- A `createContext` on a factory with no pending creation and a live
instance that passes the probe reuses that instance. -/
lemma createContextFull_of_reuse (v : Nat → Bool) (dir : String)
    (s : PersistentState) (b : Nat) (h1 : s.pending = none)
    (h2 : s.browserInstance = some b) (h3 : v b = true) :
    createContextFull v dir s = (.reuseExisting b, s) := by
  unfold createContextFull
  rw [h1, h2]
  simp [h3]

/-- Field bookkeeping of a hard close, for reuse in later proofs: the
instance and the claim are always cleared, while the pending slot, the
launch counter and the id supply are untouched. -/
lemma hardClose_fields (a t : Bool) (s : PersistentState) :
    (hardCloseBrowserContext a t s).browserInstance = none ∧
    (hardCloseBrowserContext a t s).userDataDir = none ∧
    (hardCloseBrowserContext a t s).launches = s.launches ∧
    (hardCloseBrowserContext a t s).pending = s.pending ∧
    (hardCloseBrowserContext a t s).nextId = s.nextId := by
  cases s with
  | mk pending browserInstance userDataDir userDataDirs launches closeCalls
      closeErrors releases nextId =>
    cases userDataDir <;> cases browserInstance <;> cases a <;> cases t <;>
      simp [hardCloseBrowserContext]

/-- C4 counterexample: from a fresh persistent factory, the first
`createContext` performs a fresh creation whose returned close function is
the hard close (source line 225), not a soft close; invoking it tears the
instance down, so the subsequent `createContext` performs a second launch
instead of reusing the handle — refuting the claim for this
createContext/close cycle. -/
theorem c4_soft_close_reuse_counterexample :
    closeKindOf (createContextFull (fun _ => true) "d"
      ⟨none, none, none, [], 0, 0, 0, 0, 0⟩).1 = .hard ∧
    (createContextFull (fun _ => true) "d"
      (hardCloseBrowserContext false false
        (createContextFull (fun _ => true) "d"
          ⟨none, none, none, [], 0, 0, 0, 0, 0⟩).2)).1 = .created 1 ∧
    (createContextFull (fun _ => true) "d"
      (hardCloseBrowserContext false false
        (createContextFull (fun _ => true) "d"
          ⟨none, none, none, [], 0, 0, 0, 0, 0⟩).2)).2.launches = 2 := by
  decide

/-- C4 as amended: a `createContext` that reused an existing live handle
hands out the soft close, which does nothing, so a subsequent
`createContext` reuses the same handle with no new launch; a
`createContext` that performed a fresh creation hands out the hard close,
after which — as after `resetBrowserInstance` — a subsequent
`createContext` performs a fresh launch. -/
theorem c4_soft_vs_hard_close (v : Nat → Bool) (dir : String)
    (s : PersistentState) :
    (∀ b : Nat, s.pending = none → s.browserInstance = some b → v b = true →
      createContextFull v dir s = (.reuseExisting b, s) ∧
      closeKindOf (.reuseExisting b) = .soft ∧
      softCloseBrowserContext s = s ∧
      createContextFull v dir (softCloseBrowserContext s)
        = (.reuseExisting b, s)) ∧
    (s.pending = none → s.browserInstance = none →
      (createContextFull v dir s).1 = .created s.nextId ∧
      closeKindOf (createContextFull v dir s).1 = .hard ∧
      (createContextFull v dir s).2.launches = s.launches + 1 ∧
      (∀ a t : Bool,
        (createContextFull v dir
          (hardCloseBrowserContext a t (createContextFull v dir s).2)).1
            = .created (s.nextId + 1) ∧
        (createContextFull v dir
          (hardCloseBrowserContext a t (createContextFull v dir s).2)).2.launches
            = s.launches + 2)) ∧
    (∀ a t : Bool,
      (createContextFull v dir (resetBrowserInstance a t s)).1
        = .created s.nextId ∧
      (createContextFull v dir (resetBrowserInstance a t s)).2.launches
        = s.launches + 1) := by
  refine ⟨?_, ?_, ?_⟩
  · intro b hpend hinst hv
    have h := createContextFull_of_reuse v dir s b hpend hinst hv
    exact ⟨h, rfl, rfl, h⟩
  · intro hpend hinst
    have h := createContextFull_of_clear v dir s hpend hinst
    refine ⟨by rw [h]; rfl, by rw [h]; rfl, by rw [h]; rfl, ?_⟩
    intro a t
    have hfields := hardClose_fields a t (createContextFull v dir s).2
    have hp2 : (createContextFull v dir s).2.pending = none := by rw [h]; rfl
    have hn2 : (createContextFull v dir s).2.nextId = s.nextId + 1 := by
      rw [h]; rfl
    have hl2 : (createContextFull v dir s).2.launches = s.launches + 1 := by
      rw [h]; rfl
    have h2 := createContextFull_of_clear v dir
      (hardCloseBrowserContext a t (createContextFull v dir s).2)
      (by rw [hfields.2.2.2.1, hp2]) hfields.1
    rw [h2]
    constructor
    · show CreateOutcome.created
        (hardCloseBrowserContext a t (createContextFull v dir s).2).nextId = _
      rw [hfields.2.2.2.2, hn2]
    · show (hardCloseBrowserContext a t (createContextFull v dir s).2).launches
        + 1 = _
      rw [hfields.2.2.1, hl2]
  · intro a t
    have hfields := hardClose_fields a t s
    have hp : (resetBrowserInstance a t s).pending = none := rfl
    have hi : (resetBrowserInstance a t s).browserInstance = none :=
      hfields.1
    have h := createContextFull_of_clear v dir (resetBrowserInstance a t s)
      hp hi
    rw [h]
    constructor
    · show CreateOutcome.created (resetBrowserInstance a t s).nextId = _
      show CreateOutcome.created (hardCloseBrowserContext a t s).nextId = _
      rw [hfields.2.2.2.2]
    · show (resetBrowserInstance a t s).launches + 1 = _
      show (hardCloseBrowserContext a t s).launches + 1 = _
      rw [hfields.2.2.1]

/-- Witness for `c4_soft_vs_hard_close`: on a live instance that passes
the probe, `createContext` reuses it with a soft close, and after
`resetBrowserInstance` a fresh creation occurs. -/
theorem c4_soft_vs_hard_close_witness :
    createContextFull (fun _ => true) "d"
        ⟨none, some 0, some "d", ["d"], 1, 0, 0, 0, 1⟩
      = (.reuseExisting 0, ⟨none, some 0, some "d", ["d"], 1, 0, 0, 0, 1⟩) ∧
    (createContextFull (fun _ => true) "d"
      (resetBrowserInstance false false
        ⟨none, some 0, some "d", ["d"], 1, 0, 0, 0, 1⟩)).2.launches = 2 := by
  have h := c4_soft_vs_hard_close (fun _ => true) "d"
    ⟨none, some 0, some "d", ["d"], 1, 0, 0, 0, 1⟩
  exact ⟨(h.1 0 rfl rfl rfl).1, (h.2.2 false false).2⟩

/-- C8 counterexample: two `createContext` calls on the isolated strategy
made while the first session is still open are backed by the same browser
(id 0 both times) with a single launch — the base registry coalesces the
browser across calls, refuting "a fresh process instance per caller". -/
theorem c8_isolated_fresh_process_counterexample :
    (baseCreateContext (⟨none, 0, 0, [], 0, 0⟩ : BaseState)).1.1 = 0 ∧
    (baseCreateContext
      (baseCreateContext (⟨none, 0, 0, [], 0, 0⟩ : BaseState)).2).1.1 = 0 ∧
    (baseCreateContext
      (baseCreateContext (⟨none, 0, 0, [], 0, 0⟩ : BaseState)).2).2.launches
        = 1 := by
  decide

/-- C8 as amended: the isolated strategy creates a fresh logical session
(browser context) per `createContext` call, but the underlying process is
shared across calls while it remains obtained; a fresh process is launched
exactly when no process is currently obtained — on the first call, or
after the last session's close has closed the browser (or it
disconnected). -/
theorem c8_isolated_fresh_session_shared_process (s : BaseState) :
    (∀ b : Nat, s.browserPromise = some b →
      (baseCreateContext s).1.1 = b ∧
      (baseCreateContext s).1.2 = s.nextCtx ∧
      (baseCreateContext s).2.launches = s.launches ∧
      (baseCreateContext s).2.nextCtx = s.nextCtx + 1) ∧
    (s.browserPromise = none →
      (baseCreateContext s).1.1 = s.nextBrowser ∧
      (baseCreateContext s).2.launches = s.launches + 1) ∧
    (∀ c : Nat, s.contexts = [c] →
      (closeBrowserContext s c).browserPromise = none ∧
      (closeBrowserContext s c).browserClosed = s.browserClosed + 1 ∧
      (baseCreateContext (closeBrowserContext s c)).2.launches
        = s.launches + 1) := by
  refine ⟨?_, ?_, ?_⟩
  · intro b hb
    simp [baseCreateContext, obtainBrowser, hb]
  · intro hb
    simp [baseCreateContext, obtainBrowser, hb]
  · intro c hc
    have hclose : closeBrowserContext s c
        = { s with browserPromise := none, contexts := [],
                   browserClosed := s.browserClosed + 1 } := by
      simp [closeBrowserContext, hc, List.erase_cons_head]
    rw [hclose]
    refine ⟨rfl, rfl, ?_⟩
    simp [baseCreateContext, obtainBrowser]

/-- Witness for `c8_isolated_fresh_session_shared_process`: with browser 7
obtained and one open session 3, a further call shares browser 7 with no
launch, while closing session 3 closes the browser and makes the next call
launch afresh. -/
theorem c8_isolated_fresh_session_shared_process_witness :
    (baseCreateContext ⟨some 7, 1, 8, [3], 4, 0⟩).1.1 = 7 ∧
    (baseCreateContext ⟨some 7, 1, 8, [3], 4, 0⟩).2.launches = 1 ∧
    (baseCreateContext
      (closeBrowserContext ⟨some 7, 1, 8, [3], 4, 0⟩ 3)).2.launches = 2 := by
  have h := c8_isolated_fresh_session_shared_process ⟨some 7, 1, 8, [3], 4, 0⟩
  exact ⟨(h.1 7 rfl).1, (h.1 7 rfl).2.2.1, (h.2.2 3 rfl).2.2⟩

/-- Iterating `_obtainBrowser` calls with no resolution, disconnect or
close event in between: the synchronous prefix of each call either
observes `_browserPromise` or installs it, and under the single-threaded
cooperative scheduling no other mutation interleaves. -/
def obtainIter : Nat → BaseState → List Nat × BaseState
  | 0, s => ([], s)
  | n + 1, s =>
    let r := obtainBrowser s
    let rest := obtainIter n r.2
    (r.1 :: rest.1, rest.2)

/-- While `_browserPromise` is set, every further `_obtainBrowser` call
returns it and changes nothing. -/
lemma obtainIter_of_pending (p : Nat) :
    ∀ (n : Nat) (s : BaseState), s.browserPromise = some p →
      obtainIter n s = (List.replicate n p, s) := by
  intro n
  induction n with
  | zero => intro s _; rfl
  | succ n ih =>
    intro s h
    have hstep : obtainBrowser s = (p, s) := by
      unfold obtainBrowser
      rw [h]
    simp [obtainIter, hstep, ih s h, List.replicate_succ]

/-- What a persistent `createContext` call observes synchronously before
any creation resolves. -/
inductive CallStart where
  /-- the call returned the outstanding `_createContextPromise` -/
  | awaitPending (p : Nat)
  /-- the call reused the live `_browserInstance` -/
  | reuseSession (b : Nat)
  /-- the call installed a new `_createContextPromise` and started the
  single underlying creation -/
  | startedCreation (p : Nat)
deriving Repr, DecidableEq

/-- The future every caller of the batch ends up awaiting. -/
def futureOf : CallStart → Nat
  | .awaitPending p => p
  | .reuseSession b => b
  | .startedCreation p => p

/-- Installing `_createContextPromise = this._doCreateContext(clientInfo)`
(source line 188): the single underlying creation starts. -/
def startPendingCreation (s : PersistentState) : PersistentState :=
  { s with pending := some s.nextId,
           launches := s.launches + 1,
           nextId := s.nextId + 1 }

/-- The synchronous prefix of `PersistentContextFactory.createContext`
(source lines 171–196): an outstanding pending creation is returned as is;
else a live, probe-passing instance is reused; else a new creation is
started and its promise installed. -/
def createContextStart (valid : Nat → Bool) (s : PersistentState) :
    CallStart × PersistentState :=
  match s.pending with
  | some p => (.awaitPending p, s)
  | none =>
    match s.browserInstance with
    | some b =>
      if valid b then (.reuseSession b, s)
      else (.startedCreation s.nextId, startPendingCreation s)
    | none => (.startedCreation s.nextId, startPendingCreation s)

/-- Iterating persistent `createContext` call starts with no resolution in
between. -/
def startIter (valid : Nat → Bool) : Nat → PersistentState →
    List CallStart × PersistentState
  | 0, s => ([], s)
  | n + 1, s =>
    let r := createContextStart valid s
    let rest := startIter valid n r.2
    (r.1 :: rest.1, rest.2)

/-- While `_createContextPromise` is set, every further persistent
`createContext` call awaits it and changes nothing. -/
lemma startIter_of_pending (v : Nat → Bool) (p : Nat) :
    ∀ (n : Nat) (s : PersistentState), s.pending = some p →
      startIter v n s = (List.replicate n (.awaitPending p), s) := by
  intro n
  induction n with
  | zero => intro s _; rfl
  | succ n ih =>
    intro s h
    have hstep : createContextStart v s = (.awaitPending p, s) := by
      unfold createContextStart
      rw [h]
    simp [startIter, hstep, ih s h, List.replicate_succ]

/-- C1: for both acquisition sites the pending-creation slot coalesces
concurrent callers.  While a pending creation exists, every further call
returns that same promise and starts nothing (the slot holds at most one
pending creation by construction: it is a single optional field).  From a
state with no pending creation (and, for the persistent strategy, no live
instance), N ≥ 2 calls issued before any resolves all resolve against the
same future and exactly one underlying launch/connect attempt occurs. -/
theorem c1_pending_creation_coalescing :
    (∀ (s : BaseState) (p : Nat), s.browserPromise = some p →
      obtainBrowser s = (p, s)) ∧
    (∀ (s : BaseState) (n : Nat), s.browserPromise = none → 2 ≤ n →
      (∀ q ∈ (obtainIter n s).1, q = s.nextBrowser) ∧
      (obtainIter n s).2.launches = s.launches + 1) ∧
    (∀ (v : Nat → Bool) (s : PersistentState) (p : Nat), s.pending = some p →
      createContextStart v s = (.awaitPending p, s)) ∧
    (∀ (v : Nat → Bool) (s : PersistentState) (n : Nat), s.pending = none →
      s.browserInstance = none → 2 ≤ n →
      (∀ r ∈ (startIter v n s).1, futureOf r = s.nextId) ∧
      (startIter v n s).2.launches = s.launches + 1) := by
  refine ⟨?_, ?_, ?_, ?_⟩
  · intro s p h
    unfold obtainBrowser
    rw [h]
  · intro s n h hn
    obtain ⟨m, rfl⟩ : ∃ m, n = m + 1 := ⟨n - 1, by omega⟩
    have hstep : obtainBrowser s
        = (s.nextBrowser,
           { s with browserPromise := some s.nextBrowser,
                    launches := s.launches + 1,
                    nextBrowser := s.nextBrowser + 1,
                    contexts := [] }) := by
      unfold obtainBrowser
      rw [h]
    have hrest := obtainIter_of_pending s.nextBrowser m
      { s with browserPromise := some s.nextBrowser,
               launches := s.launches + 1,
               nextBrowser := s.nextBrowser + 1,
               contexts := [] } rfl
    constructor
    · intro q hq
      simp only [obtainIter, hstep, hrest] at hq
      rcases List.mem_cons.mp hq with h' | h'
      · exact h'
      · exact List.eq_of_mem_replicate h'
    · simp [obtainIter, hstep, hrest]
  · intro v s p h
    unfold createContextStart
    rw [h]
  · intro v s n hp hi hn
    obtain ⟨m, rfl⟩ : ∃ m, n = m + 1 := ⟨n - 1, by omega⟩
    have hstep : createContextStart v s
        = (.startedCreation s.nextId, startPendingCreation s) := by
      unfold createContextStart
      rw [hp, hi]
    have hrest := startIter_of_pending v s.nextId m
      (startPendingCreation s) rfl
    constructor
    · intro r hr
      simp only [startIter, hstep, hrest] at hr
      rcases List.mem_cons.mp hr with h' | h'
      · rw [h']; rfl
      · rw [List.eq_of_mem_replicate h']; rfl
    · have hunfold : (startIter v (m + 1) s).2
          = (startIter v m (createContextStart v s).2).2 := rfl
      rw [hunfold, hstep]
      dsimp only
      rw [hrest]
      rfl

/-- Witness for `c1_pending_creation_coalescing`: two concurrent calls on
each fresh acquisition site cause exactly one creation. -/
theorem c1_pending_creation_coalescing_witness :
    (obtainIter 2 ⟨none, 0, 0, [], 0, 0⟩).2.launches = 0 + 1 ∧
    (startIter (fun _ => true) 2
      ⟨none, none, none, [], 0, 0, 0, 0, 0⟩).2.launches = 0 + 1 := by
  exact ⟨(c1_pending_creation_coalescing.2.1 ⟨none, 0, 0, [], 0, 0⟩ 2 rfl
      (by omega)).2,
    (c1_pending_creation_coalescing.2.2.2 (fun _ => true)
      ⟨none, none, none, [], 0, 0, 0, 0, 0⟩ 2 rfl rfl (by omega)).2⟩

end BrowserContextFactory
